import Mathlib

/-!
A verification development for the saga order-processing service.

The definitions below are a shallow embedding of the TypeScript sources:
the activity implementations (order, inventory, payment, notification
capabilities and their compensations) and the saga coordinator
`orderWorkflow`.  JavaScript `Map` stores are embedded as association
lists, machine numbers as `Nat` (quantities, prices, amounts), the
real-valued random draw in [0,100) of the payment capability as a rational,
and a thrown error as the `Except.error` channel carrying the message
string.  Timestamps and generated payment identifiers are plain strings
supplied as parameters.
-/

namespace Saga

instance {ε α : Type} [DecidableEq ε] [DecidableEq α] :
    DecidableEq (Except ε α) := fun a b =>
  match a, b with
  | Except.error x, Except.error y =>
    if h : x = y then Decidable.isTrue (h ▸ rfl)
    else Decidable.isFalse (fun hh => h (Except.error.inj hh))
  | Except.error _, Except.ok _ =>
    Decidable.isFalse (fun hh => Except.noConfusion hh)
  | Except.ok _, Except.error _ =>
    Decidable.isFalse (fun hh => Except.noConfusion hh)
  | Except.ok x, Except.ok y =>
    if h : x = y then Decidable.isTrue (h ▸ rfl)
    else Decidable.isFalse (fun hh => h (Except.ok.inj hh))

/-- Association-list lookup, embedding `Map.get`. -/
def mapGet {α : Type} : List (String × α) → String → Option α
  | [], _ => none
  | (k, v) :: rest, key => if k = key then some v else mapGet rest key

/-- Association-list update, embedding `Map.set`: replaces the value at an
existing key, appends a fresh key at the end. -/
def mapSet {α : Type} : List (String × α) → String → α → List (String × α)
  | [], key, v => [(key, v)]
  | (k, w) :: rest, key, v =>
    if k = key then (key, v) :: rest else (k, w) :: mapSet rest key v

/-- An order line item (TS `OrderItem`). -/
structure OrderItem where
  itemId : String
  name : String
  quantity : Nat
  price : Nat
  deriving DecidableEq, Repr

/-- Workflow input (TS `OrderData`). -/
structure OrderData where
  orderId : String
  userId : String
  items : List OrderItem
  totalAmount : Nat
  deriving DecidableEq, Repr

/-- A stored order (TS `Order`); the status literal union is embedded as a
string over the values used by the code. -/
structure Order where
  orderId : String
  userId : String
  items : List OrderItem
  totalAmount : Nat
  status : String
  createdAt : String
  cancelledAt : Option String
  deriving DecidableEq, Repr

/-- A stock record (TS `InventoryItem`).  The optional `reserved` field is
embedded as a `Nat` that starts at 0: the code only reads it through
`(stock.reserved || 0)`, which is what the 0 default denotes. -/
structure InventoryItem where
  name : String
  quantity : Nat
  reserved : Nat
  deriving DecidableEq, Repr

/-- A stored payment (TS `Payment`). -/
structure Payment where
  paymentId : String
  orderId : String
  userId : String
  amount : Nat
  status : String
  processedAt : String
  refundedAt : Option String
  deriving DecidableEq, Repr

/-- Result of the create-order capability (TS `CreateOrderResult`). -/
structure CreateOrderResult where
  success : Bool
  message : Option String
  orderId : Option String
  userId : Option String
  items : Option (List OrderItem)
  totalAmount : Option Nat
  status : Option String
  createdAt : Option String
  deriving DecidableEq, Repr

/-- Result of the reserve-inventory capability (TS `ReserveInventoryResult`). -/
structure ReserveInventoryResult where
  success : Bool
  message : Option String
  deriving DecidableEq, Repr

/-- Result of the payment capability (TS `ProcessPaymentResult`). -/
structure ProcessPaymentResult where
  success : Bool
  paymentId : Option String
  amount : Option Nat
  message : Option String
  deriving DecidableEq, Repr

/-- Result of an email capability (TS `SendEmailResult`). -/
structure SendEmailResult where
  success : Bool
  message : Option String
  deriving DecidableEq, Repr

/-- Result record of the compensation capabilities, whose TS return type is
`{ success: boolean; message: string }`. -/
structure SimpleResult where
  success : Bool
  message : String
  deriving DecidableEq, Repr

/-- The final workflow outcome (TS `WorkflowResult`). -/
structure WorkflowResult where
  success : Bool
  orderId : String
  message : String
  paymentId : Option String
  error : Option String
  deriving DecidableEq, Repr

/-- A compensation ledger entry (TS `CompensationStep`), embedded as a
tagged union whose payload carries exactly the fields the workflow stores
for that kind. -/
inductive CompensationStep where
  | cancelOrder (orderId : String)
  | releaseInventory (orderId : String) (items : List OrderItem)
  | refundPayment (orderId : String) (paymentId : String)
  deriving DecidableEq, Repr

/-- The in-memory module-level stores of the activities file: `orders`,
`inventory`, `payments`. -/
structure World where
  orders : List (String × Order)
  inventory : List (String × InventoryItem)
  payments : List (String × Payment)
  deriving DecidableEq, Repr

/-- The initial `inventory` map of the activities module. -/
def initialInventory : List (String × InventoryItem) :=
  [("item-1", { name := "Product 1", quantity := 10, reserved := 0 }),
   ("item-2", { name := "Product 2", quantity := 5, reserved := 0 }),
   ("item-3", { name := "Product 3", quantity := 8, reserved := 0 })]

/-- The module state at process start: empty orders and payments, the
initial inventory. -/
def initialWorld : World :=
  { orders := [], inventory := initialInventory, payments := [] }

/-- `createOrderActivity`: stores the order with status created and
returns success spread with the order fields.  `now` stands for the
`new Date().toISOString()` timestamp. -/
def createOrderActivity (d : OrderData) (now : String)
    (orders : List (String × Order)) :
    CreateOrderResult × List (String × Order) :=
  let order : Order :=
    { orderId := d.orderId, userId := d.userId, items := d.items,
      totalAmount := d.totalAmount, status := "created", createdAt := now,
      cancelledAt := none }
  ({ success := true, message := none, orderId := some order.orderId,
     userId := some order.userId, items := some order.items,
     totalAmount := some order.totalAmount, status := some order.status,
     createdAt := some order.createdAt },
   mapSet orders d.orderId order)

/-- The result value `reserveInventoryActivity` returns when every item
could be reserved. -/
def reserveOk : ReserveInventoryResult :=
  { success := true, message := some ("Inventory reserved successfully") }

/-- The failure value `reserveInventoryActivity` returns at the first item
whose stock is missing or insufficient. -/
def reserveFail (itemId : String) : ReserveInventoryResult :=
  { success := false,
    message := some ("Insufficient inventory for product " ++ itemId) }

/-- The check-and-reserve loop of `reserveInventoryActivity`: walks the
items in order, deducting quantity and incrementing the reservation as it
goes; returns at the first missing or insufficient stock, keeping the
mutations already applied. -/
def reserveLoop : List (String × InventoryItem) → List OrderItem →
    ReserveInventoryResult × List (String × InventoryItem)
  | inv, [] => (reserveOk, inv)
  | inv, it :: rest =>
    match mapGet inv it.itemId with
    | none => (reserveFail it.itemId, inv)
    | some stock =>
      if stock.quantity < it.quantity then
        (reserveFail it.itemId, inv)
      else
        reserveLoop
          (mapSet inv it.itemId
            { stock with quantity := stock.quantity - it.quantity,
                         reserved := stock.reserved + it.quantity })
          rest

/-- `reserveInventoryActivity` (the `orderId` argument is only logged). -/
def reserveInventoryActivity (_orderId : String) (items : List OrderItem)
    (inv : List (String × InventoryItem)) :
    ReserveInventoryResult × List (String × InventoryItem) :=
  reserveLoop inv items

/-- `processPaymentActivity`: checks the business ceiling first, then the
transient-error bands of the random draw, then the client-error bands,
then succeeds.  `random` embeds the `Math.random() * 100` draw as a
rational; `freshId` the generated payment identifier; a thrown error is
the `Except.error` channel. -/
def processPaymentActivity (orderId userId : String) (amount : Nat)
    (random : Rat) (freshId now : String)
    (payments : List (String × Payment)) :
    Except String (ProcessPaymentResult × List (String × Payment)) :=
  if amount > 1000 then
    Except.ok
      ({ success := false, paymentId := none, amount := none,
         message := some ("Payment failed: Amount exceeds limit of 1000") },
       payments)
  else if random < 15 then
    Except.error ("Payment API timeout - network connection failed")
  else if 15 ≤ random ∧ random < 25 then
    Except.error ("Payment API server error 500 - Internal server error")
  else if 25 ≤ random ∧ random < 30 then
    Except.ok
      ({ success := false, paymentId := none, amount := none,
         message := some ("Payment failed: Invalid request format (400 Bad Request)") },
       payments)
  else if 30 ≤ random ∧ random < 33 then
    Except.ok
      ({ success := false, paymentId := none, amount := none,
         message := some ("Payment failed: Invalid API credentials (401 Unauthorized)") },
       payments)
  else
    let payment : Payment :=
      { paymentId := freshId, orderId := orderId, userId := userId,
        amount := amount, status := "completed", processedAt := now,
        refundedAt := none }
    Except.ok
      ({ success := true, paymentId := some freshId, amount := some amount,
         message := none },
       mapSet payments freshId payment)

/-- `sendConfirmationEmailActivity`: always succeeds, no store change. -/
def sendConfirmationEmailActivity (_orderId _userId : String)
    (_totalAmount : Nat) : SendEmailResult :=
  { success := true, message := some ("Email sent") }

/-- `cancelOrderActivity`: marks the order cancelled when it exists and
returns success either way. -/
def cancelOrderActivity (orderId now : String)
    (orders : List (String × Order)) : SimpleResult × List (String × Order) :=
  let updated :=
    match mapGet orders orderId with
    | some o =>
      mapSet orders orderId
        { o with status := "cancelled", cancelledAt := some now }
    | none => orders
  ({ success := true, message := "Order cancelled" }, updated)

/-- The return-items loop of `releaseInventoryActivity`: items with no
stock record are skipped; `Math.max(0, reserved - quantity)` is the
truncated `Nat` subtraction. -/
def releaseLoop : List (String × InventoryItem) → List OrderItem →
    List (String × InventoryItem)
  | inv, [] => inv
  | inv, it :: rest =>
    let inv2 :=
      match mapGet inv it.itemId with
      | some stock =>
        mapSet inv it.itemId
          { stock with quantity := stock.quantity + it.quantity,
                       reserved := stock.reserved - it.quantity }
      | none => inv
    releaseLoop inv2 rest

/-- `releaseInventoryActivity`: returns success unconditionally after the
loop. -/
def releaseInventoryActivity (_orderId : String) (items : List OrderItem)
    (inv : List (String × InventoryItem)) :
    SimpleResult × List (String × InventoryItem) :=
  ({ success := true, message := "Inventory released" }, releaseLoop inv items)

/-- `refundPaymentActivity`: marks the payment refunded when it exists and
returns success either way. -/
def refundPaymentActivity (_orderId paymentId now : String)
    (payments : List (String × Payment)) :
    SimpleResult × List (String × Payment) :=
  let updated :=
    match mapGet payments paymentId with
    | some p =>
      mapSet payments paymentId
        { p with status := "refunded", refundedAt := some now }
    | none => payments
  ({ success := true, message := "Payment refunded" }, updated)

/-- `sendCancellationEmailActivity`: always succeeds, no store change. -/
def sendCancellationEmailActivity (_orderId _userId _reason : String) :
    SimpleResult :=
  { success := true, message := "Cancellation email sent" }

/-!
The saga coordinator `orderWorkflow` is embedded over an explicit activity
gateway: one state-passing function per capability, each returning either
a result (`Except.ok`) or a raised fault (`Except.error`) together with
the successor state.  This is the `proxyActivities` interface the workflow
imports; the declared retry policy lives in the gateway (see
`paymentWithRetry` for the real gateway), so each gateway call already
denotes the post-retry outcome the workflow observes.
-/

/-- The activity gateway interface the workflow calls through (the eight
proxied capabilities), state-passing over a state type `σ`. -/
structure Gateway (σ : Type) where
  createOrder : OrderData → σ → Except String CreateOrderResult × σ
  reserveInventory : String → List OrderItem → σ →
    Except String ReserveInventoryResult × σ
  processPayment : String → String → Nat → σ →
    Except String ProcessPaymentResult × σ
  sendConfirmationEmail : String → String → Nat → σ →
    Except String SendEmailResult × σ
  cancelOrder : String → σ → Except String SimpleResult × σ
  releaseInventory : String → List OrderItem → σ →
    Except String SimpleResult × σ
  refundPayment : String → String → σ → Except String SimpleResult × σ
  sendCancellationEmail : String → String → String → σ →
    Except String SimpleResult × σ

/-- The capability invocations a run can make, recorded in invocation
order as the run trace. -/
inductive Call where
  | createOrder
  | reserveInventory
  | processPayment
  | sendConfirmationEmail
  | cancelOrder
  | releaseInventory
  | refundPayment
  | sendCancellationEmail
  deriving DecidableEq, Repr

/-- The Step Catalog order of the four forward capabilities. -/
def catalogOrder : List Call :=
  [Call.createOrder, Call.reserveInventory, Call.processPayment,
   Call.sendConfirmationEmail]

/-- The compensation capability a ledger entry dispatches to (the
`switch (step.type)` of the workflow). -/
def compKindCall : CompensationStep → Call
  | CompensationStep.cancelOrder _ => Call.cancelOrder
  | CompensationStep.releaseInventory _ _ => Call.releaseInventory
  | CompensationStep.refundPayment _ _ => Call.refundPayment

/-- JavaScript `a || b` on an optional string: the empty string is falsy.
Embeds the workflow fallback from paymentResult.message to Unknown error. -/
def jsOrElse : Option String → String → String
  | some s, d => if s = "" then d else s
  | none, d => d

/-- JavaScript truthiness of an optional string, embedding the workflow
guard `if (paymentResult.paymentId)`. -/
def jsTruthy : Option String → Bool
  | some s => if s = "" then false else true
  | none => false

/-- Output of the forward phase (the body of the workflow try block):
either the thrown error message or the payment identifier of the success
return, plus the compensation ledger built so far, the forward calls made,
and the state reached. -/
structure FwdOut (σ : Type) where
  outcome : Except String (Option String)
  ledger : List CompensationStep
  trace : List Call
  state : σ

/-- The forward phase of `orderWorkflow` (order-workflow.ts lines 34-92):
createOrder (result unchecked) then push cancelOrder; reserveInventory
then push releaseInventory, then throw on a failure result; processPayment,
throw on a failure result, push refundPayment only when a payment
identifier is present; sendConfirmationEmail (result unchecked). -/
def forwardPhase {σ : Type} (G : Gateway σ) (d : OrderData) (s : σ) :
    FwdOut σ :=
  match G.createOrder d s with
  | (Except.error m, s1) => ⟨Except.error m, [], [Call.createOrder], s1⟩
  | (Except.ok _, s1) =>
    let L1 : List CompensationStep := [CompensationStep.cancelOrder d.orderId]
    match G.reserveInventory d.orderId d.items s1 with
    | (Except.error m, s2) =>
      ⟨Except.error m, L1, [Call.createOrder, Call.reserveInventory], s2⟩
    | (Except.ok ir, s2) =>
      let L2 := L1 ++ [CompensationStep.releaseInventory d.orderId d.items]
      if ir.success then
        match G.processPayment d.orderId d.userId d.totalAmount s2 with
        | (Except.error m, s3) =>
          ⟨Except.error m, L2,
           [Call.createOrder, Call.reserveInventory, Call.processPayment], s3⟩
        | (Except.ok pr, s3) =>
          if pr.success then
            let L3 :=
              if jsTruthy pr.paymentId then
                L2 ++ [CompensationStep.refundPayment d.orderId
                        (pr.paymentId.getD (""))]
              else L2
            match G.sendConfirmationEmail d.orderId d.userId d.totalAmount s3 with
            | (Except.error m, s4) =>
              ⟨Except.error m, L3,
               [Call.createOrder, Call.reserveInventory, Call.processPayment,
                Call.sendConfirmationEmail], s4⟩
            | (Except.ok _, s4) =>
              ⟨Except.ok pr.paymentId, L3,
               [Call.createOrder, Call.reserveInventory, Call.processPayment,
                Call.sendConfirmationEmail], s4⟩
          else
            ⟨Except.error ("Payment failed: " ++
               jsOrElse pr.message ("Unknown error")), L2,
             [Call.createOrder, Call.reserveInventory, Call.processPayment], s3⟩
      else
        ⟨Except.error ("Insufficient inventory"), L2,
         [Call.createOrder, Call.reserveInventory], s2⟩

/-- One iteration of the compensation loop: dispatch on the entry kind,
invoke the capability, swallow its result and any raised fault (the
try/catch around the switch), keep the state it produced. -/
def runCompStep {σ : Type} (G : Gateway σ) (st : CompensationStep) (s : σ) :
    Call × σ :=
  match st with
  | CompensationStep.refundPayment oid pid =>
    (Call.refundPayment, (G.refundPayment oid pid s).2)
  | CompensationStep.releaseInventory oid items =>
    (Call.releaseInventory, (G.releaseInventory oid items s).2)
  | CompensationStep.cancelOrder oid =>
    (Call.cancelOrder, (G.cancelOrder oid s).2)

/-- The compensation loop over a list of entries (already in execution
order), returning the calls made and the final state. -/
def compensateSteps {σ : Type} (G : Gateway σ) :
    List CompensationStep → σ → List Call × σ
  | [], s => ([], s)
  | st :: rest, s =>
    let p := runCompStep G st s
    let q := compensateSteps G rest p.2
    (p.1 :: q.1, q.2)

/-- The whole catch block unwind: walk the ledger from its last entry to
its first, then attempt the cancellation email (its result and any fault
likewise swallowed). -/
def compensatePhase {σ : Type} (G : Gateway σ) (d : OrderData)
    (errMsg : String) (ledger : List CompensationStep) (s : σ) :
    List Call × σ :=
  let p := compensateSteps G ledger.reverse s
  let q := G.sendCancellationEmail d.orderId d.userId errMsg p.2
  (p.1 ++ [Call.sendCancellationEmail], q.2)

/-- Everything observable about one workflow run: the returned
`WorkflowResult`, the capability calls in invocation order, the final
value of the `compensationSteps` array, and the final state. -/
structure RunOut (σ : Type) where
  result : WorkflowResult
  trace : List Call
  ledger : List CompensationStep
  state : σ

/-- `orderWorkflow`: run the forward phase; on a normal completion return
the success outcome; on a thrown error run the compensation phase and
return the compensated outcome carrying the forward error message. -/
def orderWorkflow {σ : Type} (G : Gateway σ) (d : OrderData) (s : σ) :
    RunOut σ :=
  let f := forwardPhase G d s
  match f.outcome with
  | Except.ok pid =>
    { result :=
        { success := true, orderId := d.orderId,
          message := "Order processed successfully", paymentId := pid,
          error := none },
      trace := f.trace, ledger := f.ledger, state := f.state }
  | Except.error msg =>
    let p := compensatePhase G d msg f.ledger f.state
    { result :=
        { success := false, orderId := d.orderId,
          message := "Order cancelled and refunded", paymentId := none,
          error := some msg },
      trace := f.trace ++ p.1, ledger := f.ledger, state := p.2 }

/-- The compensation capability invocations of a run, in execution order. -/
def isUndoCall : Call → Bool
  | Call.cancelOrder => true
  | Call.releaseInventory => true
  | Call.refundPayment => true
  | _ => false

/-- The executed compensations of a run (the cancellation email is
excluded: it is a notification, not an undo of a forward step). -/
def compsExecuted {σ : Type} (r : RunOut σ) : List Call :=
  r.trace.filter isUndoCall

/-!
The real gateway: the proxied activities of the activities module, with
the declared retry policy (`maximumAttempts: 3`, faults only) applied to
the one capability that can raise, the payment.  `r1 r2 r3` are the
random draws of the up-to-three payment attempts, `pid` the generated
identifier of the successful attempt, `now` the clock reading.
-/

/-- Up to three payment attempts: a raised fault triggers the next
attempt, a returned result (success or failure) is final; the third
fault propagates. -/
def paymentWithRetry (oid uid : String) (amt : Nat) (r1 r2 r3 : Rat)
    (pid now : String) (ps : List (String × Payment)) :
    Except String (ProcessPaymentResult × List (String × Payment)) :=
  match processPaymentActivity oid uid amt r1 pid now ps with
  | Except.ok x => Except.ok x
  | Except.error _ =>
    match processPaymentActivity oid uid amt r2 pid now ps with
    | Except.ok x => Except.ok x
    | Except.error _ => processPaymentActivity oid uid amt r3 pid now ps

/-- The gateway whose capabilities are the activity implementations acting
on the module stores. -/
def realGateway (r1 r2 r3 : Rat) (pid now : String) : Gateway World where
  createOrder := fun d s =>
    let p := createOrderActivity d now s.orders
    (Except.ok p.1, { s with orders := p.2 })
  reserveInventory := fun oid items s =>
    let p := reserveInventoryActivity oid items s.inventory
    (Except.ok p.1, { s with inventory := p.2 })
  processPayment := fun oid uid amt s =>
    match paymentWithRetry oid uid amt r1 r2 r3 pid now s.payments with
    | Except.ok x => (Except.ok x.1, { s with payments := x.2 })
    | Except.error m => (Except.error m, s)
  sendConfirmationEmail := fun oid uid amt s =>
    (Except.ok (sendConfirmationEmailActivity oid uid amt), s)
  cancelOrder := fun oid s =>
    let p := cancelOrderActivity oid now s.orders
    (Except.ok p.1, { s with orders := p.2 })
  releaseInventory := fun oid items s =>
    let p := releaseInventoryActivity oid items s.inventory
    (Except.ok p.1, { s with inventory := p.2 })
  refundPayment := fun oid pid2 s =>
    let p := refundPaymentActivity oid pid2 now s.payments
    (Except.ok p.1, { s with payments := p.2 })
  sendCancellationEmail := fun oid uid reason s =>
    (Except.ok (sendCancellationEmailActivity oid uid reason), s)

/-- One whole-system saga run: the workflow over the real gateway. -/
def realRun (w : World) (r1 r2 r3 : Rat) (pid now : String)
    (d : OrderData) : RunOut World :=
  orderWorkflow (realGateway r1 r2 r3 pid now) d w

/-!  Path lemmas: the forward phase along each of its control paths.  -/

theorem forwardPhase_create_throw {σ : Type} (G : Gateway σ) (d : OrderData)
    (s s1 : σ) (m : String) (hc : G.createOrder d s = (Except.error m, s1)) :
    forwardPhase G d s = ⟨Except.error m, [], [Call.createOrder], s1⟩ := by
  unfold forwardPhase
  rw [hc]

theorem forwardPhase_reserve_throw {σ : Type} (G : Gateway σ) (d : OrderData)
    (s s1 s2 : σ) (cr : CreateOrderResult) (m : String)
    (hc : G.createOrder d s = (Except.ok cr, s1))
    (hr : G.reserveInventory d.orderId d.items s1 = (Except.error m, s2)) :
    forwardPhase G d s =
      ⟨Except.error m, [CompensationStep.cancelOrder d.orderId],
       [Call.createOrder, Call.reserveInventory], s2⟩ := by
  simp only [forwardPhase, hc, hr]

theorem forwardPhase_reserve_false {σ : Type} (G : Gateway σ) (d : OrderData)
    (s s1 s2 : σ) (cr : CreateOrderResult) (ir : ReserveInventoryResult)
    (hc : G.createOrder d s = (Except.ok cr, s1))
    (hr : G.reserveInventory d.orderId d.items s1 = (Except.ok ir, s2))
    (hs : ir.success = false) :
    forwardPhase G d s =
      ⟨Except.error ("Insufficient inventory"),
       [CompensationStep.cancelOrder d.orderId,
        CompensationStep.releaseInventory d.orderId d.items],
       [Call.createOrder, Call.reserveInventory], s2⟩ := by
  simp only [forwardPhase, hc, hr, hs]
  simp

theorem forwardPhase_payment_throw {σ : Type} (G : Gateway σ) (d : OrderData)
    (s s1 s2 s3 : σ) (cr : CreateOrderResult) (ir : ReserveInventoryResult)
    (m : String)
    (hc : G.createOrder d s = (Except.ok cr, s1))
    (hr : G.reserveInventory d.orderId d.items s1 = (Except.ok ir, s2))
    (hs : ir.success = true)
    (hp : G.processPayment d.orderId d.userId d.totalAmount s2 =
      (Except.error m, s3)) :
    forwardPhase G d s =
      ⟨Except.error m,
       [CompensationStep.cancelOrder d.orderId,
        CompensationStep.releaseInventory d.orderId d.items],
       [Call.createOrder, Call.reserveInventory, Call.processPayment], s3⟩ := by
  simp only [forwardPhase, hc, hr, hs, hp]
  simp

theorem forwardPhase_payment_false {σ : Type} (G : Gateway σ) (d : OrderData)
    (s s1 s2 s3 : σ) (cr : CreateOrderResult) (ir : ReserveInventoryResult)
    (pr : ProcessPaymentResult)
    (hc : G.createOrder d s = (Except.ok cr, s1))
    (hr : G.reserveInventory d.orderId d.items s1 = (Except.ok ir, s2))
    (hs : ir.success = true)
    (hp : G.processPayment d.orderId d.userId d.totalAmount s2 =
      (Except.ok pr, s3))
    (hps : pr.success = false) :
    forwardPhase G d s =
      ⟨Except.error ("Payment failed: " ++ jsOrElse pr.message ("Unknown error")),
       [CompensationStep.cancelOrder d.orderId,
        CompensationStep.releaseInventory d.orderId d.items],
       [Call.createOrder, Call.reserveInventory, Call.processPayment], s3⟩ := by
  simp only [forwardPhase, hc, hr, hs, hp, hps]
  simp

theorem forwardPhase_email_throw {σ : Type} (G : Gateway σ) (d : OrderData)
    (s s1 s2 s3 s4 : σ) (cr : CreateOrderResult) (ir : ReserveInventoryResult)
    (pr : ProcessPaymentResult) (m : String)
    (hc : G.createOrder d s = (Except.ok cr, s1))
    (hr : G.reserveInventory d.orderId d.items s1 = (Except.ok ir, s2))
    (hs : ir.success = true)
    (hp : G.processPayment d.orderId d.userId d.totalAmount s2 =
      (Except.ok pr, s3))
    (hps : pr.success = true)
    (he : G.sendConfirmationEmail d.orderId d.userId d.totalAmount s3 =
      (Except.error m, s4)) :
    forwardPhase G d s =
      ⟨Except.error m,
       (if jsTruthy pr.paymentId then
          [CompensationStep.cancelOrder d.orderId,
           CompensationStep.releaseInventory d.orderId d.items,
           CompensationStep.refundPayment d.orderId (pr.paymentId.getD (""))]
        else
          [CompensationStep.cancelOrder d.orderId,
           CompensationStep.releaseInventory d.orderId d.items]),
       catalogOrder, s4⟩ := by
  simp only [forwardPhase, hc, hr, hs, hp, hps, he]
  by_cases hj : jsTruthy pr.paymentId <;> simp [hj, catalogOrder]

theorem forwardPhase_success {σ : Type} (G : Gateway σ) (d : OrderData)
    (s s1 s2 s3 s4 : σ) (cr : CreateOrderResult) (ir : ReserveInventoryResult)
    (pr : ProcessPaymentResult) (er : SendEmailResult)
    (hc : G.createOrder d s = (Except.ok cr, s1))
    (hr : G.reserveInventory d.orderId d.items s1 = (Except.ok ir, s2))
    (hs : ir.success = true)
    (hp : G.processPayment d.orderId d.userId d.totalAmount s2 =
      (Except.ok pr, s3))
    (hps : pr.success = true)
    (he : G.sendConfirmationEmail d.orderId d.userId d.totalAmount s3 =
      (Except.ok er, s4)) :
    forwardPhase G d s =
      ⟨Except.ok pr.paymentId,
       (if jsTruthy pr.paymentId then
          [CompensationStep.cancelOrder d.orderId,
           CompensationStep.releaseInventory d.orderId d.items,
           CompensationStep.refundPayment d.orderId (pr.paymentId.getD (""))]
        else
          [CompensationStep.cancelOrder d.orderId,
           CompensationStep.releaseInventory d.orderId d.items]),
       catalogOrder, s4⟩ := by
  simp only [forwardPhase, hc, hr, hs, hp, hps, he]
  by_cases hj : jsTruthy pr.paymentId <;> simp [hj, catalogOrder]

/-!  The compensation loop emits exactly the dispatch of each entry.  -/

theorem runCompStep_fst {σ : Type} (G : Gateway σ) (st : CompensationStep)
    (s : σ) : (runCompStep G st s).1 = compKindCall st := by
  cases st <;> rfl

theorem compensateSteps_trace {σ : Type} (G : Gateway σ)
    (steps : List CompensationStep) (s : σ) :
    (compensateSteps G steps s).1 = steps.map compKindCall := by
  induction steps generalizing s with
  | nil => rfl
  | cons st rest ih =>
    simp [compensateSteps, runCompStep_fst, ih]

theorem compensatePhase_trace {σ : Type} (G : Gateway σ) (d : OrderData)
    (errMsg : String) (ledger : List CompensationStep) (s : σ) :
    (compensatePhase G d errMsg ledger s).1 =
      ledger.reverse.map compKindCall ++ [Call.sendCancellationEmail] := by
  unfold compensatePhase
  simp [compensateSteps_trace]

/-!  The workflow outcome from the forward-phase outcome.  -/

theorem orderWorkflow_of_fwd_ok {σ : Type} (G : Gateway σ) (d : OrderData)
    (s : σ) (pid : Option String)
    (h : (forwardPhase G d s).outcome = Except.ok pid) :
    (orderWorkflow G d s).result =
      { success := true, orderId := d.orderId,
        message := "Order processed successfully", paymentId := pid,
        error := none } ∧
    (orderWorkflow G d s).trace = (forwardPhase G d s).trace ∧
    (orderWorkflow G d s).ledger = (forwardPhase G d s).ledger := by
  simp [orderWorkflow, h]

theorem orderWorkflow_of_fwd_error {σ : Type} (G : Gateway σ) (d : OrderData)
    (s : σ) (m : String)
    (h : (forwardPhase G d s).outcome = Except.error m) :
    (orderWorkflow G d s).result =
      { success := false, orderId := d.orderId,
        message := "Order cancelled and refunded", paymentId := none,
        error := some m } ∧
    (orderWorkflow G d s).trace =
      (forwardPhase G d s).trace ++
        (forwardPhase G d s).ledger.reverse.map compKindCall ++
        [Call.sendCancellationEmail] ∧
    (orderWorkflow G d s).ledger = (forwardPhase G d s).ledger := by
  simp [orderWorkflow, h, compensatePhase_trace]

/-!  Facts about the real gateway and the payment capability.  -/

theorem realGateway_createOrder (r1 r2 r3 : Rat) (pid now : String)
    (d : OrderData) (w : World) :
    (realGateway r1 r2 r3 pid now).createOrder d w =
      (Except.ok (createOrderActivity d now w.orders).1,
       { w with orders := (createOrderActivity d now w.orders).2 }) := rfl

theorem realGateway_reserveInventory (r1 r2 r3 : Rat) (pid now oid : String)
    (items : List OrderItem) (w : World) :
    (realGateway r1 r2 r3 pid now).reserveInventory oid items w =
      (Except.ok (reserveInventoryActivity oid items w.inventory).1,
       { w with inventory := (reserveInventoryActivity oid items w.inventory).2 }) := rfl

theorem realGateway_sendConfirmationEmail (r1 r2 r3 : Rat)
    (pid now oid uid : String) (amt : Nat) (w : World) :
    (realGateway r1 r2 r3 pid now).sendConfirmationEmail oid uid amt w =
      (Except.ok (sendConfirmationEmailActivity oid uid amt), w) := rfl

theorem realGateway_processPayment_of_ok (r1 r2 r3 : Rat)
    (pid now oid uid : String) (amt : Nat) (w : World)
    (pr : ProcessPaymentResult) (ps2 : List (String × Payment))
    (h : paymentWithRetry oid uid amt r1 r2 r3 pid now w.payments =
      Except.ok (pr, ps2)) :
    (realGateway r1 r2 r3 pid now).processPayment oid uid amt w =
      (Except.ok pr, { w with payments := ps2 }) := by
  simp only [realGateway, h]

theorem realGateway_processPayment_of_error (r1 r2 r3 : Rat)
    (pid now oid uid : String) (amt : Nat) (w : World) (m : String)
    (h : paymentWithRetry oid uid amt r1 r2 r3 pid now w.payments =
      Except.error m) :
    (realGateway r1 r2 r3 pid now).processPayment oid uid amt w =
      (Except.error m, w) := by
  simp only [realGateway, h]

/-- The failure result of the payment business ceiling. -/
def limitFailResult : ProcessPaymentResult :=
  { success := false, paymentId := none, amount := none,
    message := some ("Payment failed: Amount exceeds limit of 1000") }

theorem processPaymentActivity_limit (oid uid : String) (amt : Nat) (r : Rat)
    (pid now : String) (ps : List (String × Payment)) (h : amt > 1000) :
    processPaymentActivity oid uid amt r pid now ps =
      Except.ok (limitFailResult, ps) := by
  simp [processPaymentActivity, h, limitFailResult]

theorem paymentWithRetry_limit (oid uid : String) (amt : Nat)
    (r1 r2 r3 : Rat) (pid now : String) (ps : List (String × Payment))
    (h : amt > 1000) :
    paymentWithRetry oid uid amt r1 r2 r3 pid now ps =
      Except.ok (limitFailResult, ps) := by
  unfold paymentWithRetry
  rw [processPaymentActivity_limit oid uid amt r1 pid now ps h]

/-- Every single payment attempt is a raised fault, a failure result with
no payment identifier leaving the store unchanged, or the success result
carrying the generated identifier. -/
theorem processPaymentActivity_shape (oid uid : String) (amt : Nat)
    (r : Rat) (pid now : String) (ps : List (String × Payment)) :
    (∃ m, processPaymentActivity oid uid amt r pid now ps = Except.error m) ∨
    (∃ msg, processPaymentActivity oid uid amt r pid now ps =
      Except.ok ({ success := false, paymentId := none, amount := none,
                   message := some msg }, ps)) ∨
    (∃ ps2, processPaymentActivity oid uid amt r pid now ps =
      Except.ok ({ success := true, paymentId := some pid,
                   amount := some amt, message := none }, ps2)) := by
  unfold processPaymentActivity
  split_ifs with h1 h2 h3 h4 h5
  · exact Or.inr (Or.inl ⟨"Payment failed: Amount exceeds limit of 1000", rfl⟩)
  · exact Or.inl ⟨"Payment API timeout - network connection failed", rfl⟩
  · exact Or.inl ⟨"Payment API server error 500 - Internal server error", rfl⟩
  · exact Or.inr (Or.inl ⟨"Payment failed: Invalid request format (400 Bad Request)", rfl⟩)
  · exact Or.inr (Or.inl ⟨"Payment failed: Invalid API credentials (401 Unauthorized)", rfl⟩)
  · exact Or.inr (Or.inr ⟨_, rfl⟩)

/-- The same trichotomy for the retried payment call. -/
theorem paymentWithRetry_shape (oid uid : String) (amt : Nat)
    (r1 r2 r3 : Rat) (pid now : String) (ps : List (String × Payment)) :
    (∃ m, paymentWithRetry oid uid amt r1 r2 r3 pid now ps = Except.error m) ∨
    (∃ msg, paymentWithRetry oid uid amt r1 r2 r3 pid now ps =
      Except.ok ({ success := false, paymentId := none, amount := none,
                   message := some msg }, ps)) ∨
    (∃ ps2, paymentWithRetry oid uid amt r1 r2 r3 pid now ps =
      Except.ok ({ success := true, paymentId := some pid,
                   amount := some amt, message := none }, ps2)) := by
  unfold paymentWithRetry
  rcases processPaymentActivity_shape oid uid amt r1 pid now ps with
    ⟨m1, h1⟩ | ⟨msg, h⟩ | ⟨ps2, h⟩
  · rw [h1]
    rcases processPaymentActivity_shape oid uid amt r2 pid now ps with
      ⟨m2, h2⟩ | ⟨msg, h⟩ | ⟨ps2, h⟩
    · rw [h2]
      rcases processPaymentActivity_shape oid uid amt r3 pid now ps with
        ⟨m3, h3⟩ | ⟨msg, h⟩ | ⟨ps2, h⟩
      · exact Or.inl ⟨m3, h3⟩
      · exact Or.inr (Or.inl ⟨msg, h⟩)
      · exact Or.inr (Or.inr ⟨ps2, h⟩)
    · rw [h]
      exact Or.inr (Or.inl ⟨msg, rfl⟩)
    · rw [h]
      exact Or.inr (Or.inr ⟨ps2, rfl⟩)
  · rw [h]
    exact Or.inr (Or.inl ⟨msg, rfl⟩)
  · rw [h]
    exact Or.inr (Or.inr ⟨ps2, rfl⟩)

/-!  The reserve loop over a successfully reserved front segment.  -/

theorem reserveLoop_append (pre rest : List OrderItem)
    (inv inv2 : List (String × InventoryItem))
    (h : reserveLoop inv pre = (reserveOk, inv2)) :
    reserveLoop inv (pre ++ rest) = reserveLoop inv2 rest := by
  induction pre generalizing inv with
  | nil =>
    simp only [reserveLoop] at h
    obtain ⟨-, h2⟩ := Prod.mk.injEq .. ▸ h
    simp only [List.nil_append]
    rw [← h2]
  | cons it pre ih =>
    simp only [reserveLoop, List.cons_append] at h ⊢
    rcases hm : mapGet inv it.itemId with _ | stock
    · rw [hm] at h
      simp only at h
      exact absurd (congrArg (fun p => p.1.success) h) (by simp [reserveFail, reserveOk])
    · rw [hm] at h
      simp only at h ⊢
      by_cases hq : stock.quantity < it.quantity
      · rw [if_pos hq] at h
        exact absurd (congrArg (fun p => p.1.success) h) (by simp [reserveFail, reserveOk])
      · rw [if_neg hq] at h ⊢
        exact ih _ h

/-- The ledger the forward phase holds after a successful payment step:
the refund entry is pushed only when a (truthy) payment identifier was
produced. -/
def ledgerAfterPayment (d : OrderData) (pr : ProcessPaymentResult) :
    List CompensationStep :=
  if jsTruthy pr.paymentId then
    [CompensationStep.cancelOrder d.orderId,
     CompensationStep.releaseInventory d.orderId d.items,
     CompensationStep.refundPayment d.orderId (pr.paymentId.getD (""))]
  else
    [CompensationStep.cancelOrder d.orderId,
     CompensationStep.releaseInventory d.orderId d.items]

/-- Exhaustive case analysis of one workflow run: every run follows one of
the seven control paths of the forward phase, and the lemma records the
gateway outcomes along the path together with the forward-phase value. -/
theorem run_cases {σ : Type} (G : Gateway σ) (d : OrderData) (s : σ) :
    (∃ m s1, G.createOrder d s = (Except.error m, s1) ∧
      forwardPhase G d s = ⟨Except.error m, [], [Call.createOrder], s1⟩) ∨
    (∃ cr s1 m s2, G.createOrder d s = (Except.ok cr, s1) ∧
      G.reserveInventory d.orderId d.items s1 = (Except.error m, s2) ∧
      forwardPhase G d s =
        ⟨Except.error m, [CompensationStep.cancelOrder d.orderId],
         [Call.createOrder, Call.reserveInventory], s2⟩) ∨
    (∃ cr s1 ir s2, G.createOrder d s = (Except.ok cr, s1) ∧
      G.reserveInventory d.orderId d.items s1 = (Except.ok ir, s2) ∧
      ir.success = false ∧
      forwardPhase G d s =
        ⟨Except.error ("Insufficient inventory"),
         [CompensationStep.cancelOrder d.orderId,
          CompensationStep.releaseInventory d.orderId d.items],
         [Call.createOrder, Call.reserveInventory], s2⟩) ∨
    (∃ cr s1 ir s2 m s3, G.createOrder d s = (Except.ok cr, s1) ∧
      G.reserveInventory d.orderId d.items s1 = (Except.ok ir, s2) ∧
      ir.success = true ∧
      G.processPayment d.orderId d.userId d.totalAmount s2 =
        (Except.error m, s3) ∧
      forwardPhase G d s =
        ⟨Except.error m,
         [CompensationStep.cancelOrder d.orderId,
          CompensationStep.releaseInventory d.orderId d.items],
         [Call.createOrder, Call.reserveInventory, Call.processPayment], s3⟩) ∨
    (∃ cr s1 ir s2 pr s3, G.createOrder d s = (Except.ok cr, s1) ∧
      G.reserveInventory d.orderId d.items s1 = (Except.ok ir, s2) ∧
      ir.success = true ∧
      G.processPayment d.orderId d.userId d.totalAmount s2 =
        (Except.ok pr, s3) ∧
      pr.success = false ∧
      forwardPhase G d s =
        ⟨Except.error ("Payment failed: " ++ jsOrElse pr.message ("Unknown error")),
         [CompensationStep.cancelOrder d.orderId,
          CompensationStep.releaseInventory d.orderId d.items],
         [Call.createOrder, Call.reserveInventory, Call.processPayment], s3⟩) ∨
    (∃ cr s1 ir s2 pr s3 m s4, G.createOrder d s = (Except.ok cr, s1) ∧
      G.reserveInventory d.orderId d.items s1 = (Except.ok ir, s2) ∧
      ir.success = true ∧
      G.processPayment d.orderId d.userId d.totalAmount s2 =
        (Except.ok pr, s3) ∧
      pr.success = true ∧
      G.sendConfirmationEmail d.orderId d.userId d.totalAmount s3 =
        (Except.error m, s4) ∧
      forwardPhase G d s =
        ⟨Except.error m, ledgerAfterPayment d pr, catalogOrder, s4⟩) ∨
    (∃ cr s1 ir s2 pr s3 er s4, G.createOrder d s = (Except.ok cr, s1) ∧
      G.reserveInventory d.orderId d.items s1 = (Except.ok ir, s2) ∧
      ir.success = true ∧
      G.processPayment d.orderId d.userId d.totalAmount s2 =
        (Except.ok pr, s3) ∧
      pr.success = true ∧
      G.sendConfirmationEmail d.orderId d.userId d.totalAmount s3 =
        (Except.ok er, s4) ∧
      forwardPhase G d s =
        ⟨Except.ok pr.paymentId, ledgerAfterPayment d pr, catalogOrder, s4⟩) := by
  rcases hc : G.createOrder d s with ⟨rc, s1⟩
  rcases rc with m | cr
  · exact Or.inl ⟨m, s1, rfl, forwardPhase_create_throw G d s s1 m hc⟩
  rcases hr : G.reserveInventory d.orderId d.items s1 with ⟨rr, s2⟩
  rcases rr with m | ir
  · exact Or.inr (Or.inl ⟨cr, s1, m, s2, rfl, hr,
      forwardPhase_reserve_throw G d s s1 s2 cr m hc hr⟩)
  rcases hs : ir.success with _ | _
  · exact Or.inr (Or.inr (Or.inl ⟨cr, s1, ir, s2, rfl, hr, hs,
      forwardPhase_reserve_false G d s s1 s2 cr ir hc hr hs⟩))
  rcases hp : G.processPayment d.orderId d.userId d.totalAmount s2 with ⟨rp, s3⟩
  rcases rp with m | pr
  · exact Or.inr (Or.inr (Or.inr (Or.inl ⟨cr, s1, ir, s2, m, s3, rfl, hr, hs,
      hp, forwardPhase_payment_throw G d s s1 s2 s3 cr ir m hc hr hs hp⟩)))
  rcases hps : pr.success with _ | _
  · exact Or.inr (Or.inr (Or.inr (Or.inr (Or.inl ⟨cr, s1, ir, s2, pr, s3,
      rfl, hr, hs, hp, hps,
      forwardPhase_payment_false G d s s1 s2 s3 cr ir pr hc hr hs hp hps⟩))))
  rcases he : G.sendConfirmationEmail d.orderId d.userId d.totalAmount s3 with ⟨re, s4⟩
  rcases re with m | er
  · exact Or.inr (Or.inr (Or.inr (Or.inr (Or.inr (Or.inl ⟨cr, s1, ir, s2,
      pr, s3, m, s4, rfl, hr, hs, hp, hps, he,
      forwardPhase_email_throw G d s s1 s2 s3 s4 cr ir pr m hc hr hs hp hps he⟩)))))
  · exact Or.inr (Or.inr (Or.inr (Or.inr (Or.inr (Or.inr ⟨cr, s1, ir, s2,
      pr, s3, er, s4, rfl, hr, hs, hp, hps, he,
      forwardPhase_success G d s s1 s2 s3 s4 cr ir pr er hc hr hs hp hps he⟩)))))

/-!  Concrete stateless gateways used to exercise the coordinator.  -/

/-- A successful create-order result returned by the test gateway. -/
def okCreated : CreateOrderResult :=
  { success := true, message := none, orderId := some ("o"), userId := some ("u"),
    items := some [], totalAmount := some 0, status := some ("created"),
    createdAt := some ("t") }

/-- A successful payment result carrying an identifier. -/
def okPayment : ProcessPaymentResult :=
  { success := true, paymentId := some ("pay-1"), amount := some 100,
    message := none }

/-- A successful email result. -/
def okEmail : SendEmailResult :=
  { success := true, message := some ("Email sent") }

/-- A successful compensation result. -/
def okSimple : SimpleResult :=
  { success := true, message := "ok" }

/-- A gateway on which every capability returns a success result. -/
def okGateway : Gateway Unit :=
  { createOrder := fun _ s => (Except.ok okCreated, s),
    reserveInventory := fun _ _ s => (Except.ok reserveOk, s),
    processPayment := fun _ _ _ s => (Except.ok okPayment, s),
    sendConfirmationEmail := fun _ _ _ s => (Except.ok okEmail, s),
    cancelOrder := fun _ s => (Except.ok okSimple, s),
    releaseInventory := fun _ _ s => (Except.ok okSimple, s),
    refundPayment := fun _ _ s => (Except.ok okSimple, s),
    sendCancellationEmail := fun _ _ _ s => (Except.ok okSimple, s) }

/-- A terminal payment failure result. -/
def payFailResult : ProcessPaymentResult :=
  { success := false, paymentId := none, amount := none,
    message := some ("card declined") }

/-- The success gateway with the payment step failing terminally. -/
def payFailGateway : Gateway Unit :=
  { okGateway with processPayment := fun _ _ _ s => (Except.ok payFailResult, s) }

/-- The payment-failure gateway with every compensation capability and the
cancellation email raising a fault. -/
def compFailGateway : Gateway Unit :=
  { payFailGateway with
    cancelOrder := fun _ s => (Except.error ("cancel failed"), s),
    releaseInventory := fun _ _ s => (Except.error ("release failed"), s),
    refundPayment := fun _ _ s => (Except.error ("refund target missing"), s),
    sendCancellationEmail := fun _ _ _ s => (Except.error ("smtp down"), s) }

/-- The success gateway with the inventory step returning a failure
result. -/
def reserveFalseGateway : Gateway Unit :=
  { okGateway with
    reserveInventory := fun _ _ s => (Except.ok (reserveFail ("item-9")), s) }

/-- A create-order result with the success flag off. -/
def createFalseResult : CreateOrderResult :=
  { success := false, message := some ("db down"), orderId := none,
    userId := none, items := none, totalAmount := none, status := none,
    createdAt := none }

/-- The success gateway with create-order returning a failure result. -/
def createFalseGateway : Gateway Unit :=
  { okGateway with createOrder := fun _ s => (Except.ok createFalseResult, s) }

/-- A gateway on which every capability raises a fault. -/
def throwGateway : Gateway Unit :=
  { createOrder := fun _ s => (Except.error ("boom"), s),
    reserveInventory := fun _ _ s => (Except.error ("boom"), s),
    processPayment := fun _ _ _ s => (Except.error ("boom"), s),
    sendConfirmationEmail := fun _ _ _ s => (Except.error ("boom"), s),
    cancelOrder := fun _ s => (Except.error ("boom"), s),
    releaseInventory := fun _ _ s => (Except.error ("boom"), s),
    refundPayment := fun _ _ s => (Except.error ("boom"), s),
    sendCancellationEmail := fun _ _ _ s => (Except.error ("boom"), s) }

/-- A sample order request for the stateless gateways. -/
def unitData : OrderData :=
  { orderId := "oX", userId := "uX",
    items := [{ itemId := "item-9", name := "P9", quantity := 1, price := 5 }],
    totalAmount := 5 }

/-!  The claims.  -/

/-- Claim C3: for every call to ProcessPayment with amount strictly
greater than 1000 and every value of the internal random draw, the call
returns the terminal failure result with message
Payment failed: Amount exceeds limit of 1000, leaves the payment store
unchanged, and never raises a fault: the business-rule check is evaluated
before every transient-error path. -/
theorem c3_business_rule_precedence (oid uid : String) (amt : Nat) (r : Rat)
    (pid now : String) (ps : List (String × Payment)) (h : amt > 1000) :
    processPaymentActivity oid uid amt r pid now ps =
      Except.ok
        ({ success := false, paymentId := none, amount := none,
           message := some ("Payment failed: Amount exceeds limit of 1000") },
         ps) ∧
    ∀ m, processPaymentActivity oid uid amt r pid now ps ≠ Except.error m := by
  have hl := processPaymentActivity_limit oid uid amt r pid now ps h
  refine ⟨hl, ?_⟩
  intro m hm
  rw [hl] at hm
  exact Except.noConfusion hm

theorem c3_witness :
    2700 > 1000 ∧
    processPaymentActivity ("o2") ("u2") 2700 7 ("p1") ("t0") [] =
      Except.ok
        ({ success := false, paymentId := none, amount := none,
           message := some ("Payment failed: Amount exceeds limit of 1000") },
         []) :=
  ⟨by decide,
   (c3_business_rule_precedence ("o2") ("u2") 2700 7 ("p1") ("t0") [] (by decide)).1⟩

/-- Claim C9: when the reserve-inventory loop has successfully walked a
front segment of the item list and then meets an item whose stock record
is missing or insufficient, the activity returns the failure result
together with the store as mutated by the front segment: the deductions
and reservation increments already applied are retained, not rolled
back. -/
theorem c9_reserve_partial_mutation (oid : String)
    (inv inv2 : List (String × InventoryItem)) (pre rest : List OrderItem)
    (it : OrderItem)
    (hpre : reserveLoop inv pre = (reserveOk, inv2))
    (hbad : ∀ stock, mapGet inv2 it.itemId = some stock →
      stock.quantity < it.quantity) :
    reserveInventoryActivity oid (pre ++ it :: rest) inv =
      (reserveFail it.itemId, inv2) := by
  unfold reserveInventoryActivity
  rw [reserveLoop_append pre (it :: rest) inv inv2 hpre]
  rcases hm : mapGet inv2 it.itemId with _ | stock
  · simp [reserveLoop, hm]
  · have hq := hbad stock hm
    simp [reserveLoop, hm, hq]

/-- The first item of the C9 witness run, fully reservable. -/
def c9PreItem : OrderItem :=
  { itemId := "item-1", name := "Product 1", quantity := 3, price := 1 }

/-- The second item of the C9 witness run, over the available stock. -/
def c9BadItem : OrderItem :=
  { itemId := "item-2", name := "Product 2", quantity := 99, price := 1 }

/-- The inventory after the first C9 item has been reserved. -/
def c9Mid : List (String × InventoryItem) :=
  [("item-1", { name := "Product 1", quantity := 7, reserved := 3 }),
   ("item-2", { name := "Product 2", quantity := 5, reserved := 0 }),
   ("item-3", { name := "Product 3", quantity := 8, reserved := 0 })]

theorem c9_witness :
    reserveLoop initialInventory [c9PreItem] = (reserveOk, c9Mid) ∧
    reserveInventoryActivity ("o1") ([c9PreItem] ++ c9BadItem :: [])
        initialInventory = (reserveFail ("item-2"), c9Mid) ∧
    c9Mid ≠ initialInventory := by
  refine ⟨by decide, ?_, by decide⟩
  refine c9_reserve_partial_mutation ("o1") initialInventory c9Mid [c9PreItem]
    [] c9BadItem (by decide) ?_
  intro stock hstock
  have hv : mapGet c9Mid c9BadItem.itemId =
      some { name := "Product 2", quantity := 5, reserved := 0 } := by decide
  rw [hv] at hstock
  cases hstock
  decide

/-- Claim C10: each compensation capability (cancel order, release
inventory, refund payment) returns a success result on every input and
every store, including stores missing the referenced order, item or
payment, and through the real gateway the call is always a returned
result, never a raised fault. -/
theorem c10_compensations_always_succeed :
    ∀ (oid pid now : String) (items : List OrderItem)
      (orders : List (String × Order)) (payments : List (String × Payment))
      (inv : List (String × InventoryItem)) (w : World) (r1 r2 r3 : Rat),
    (cancelOrderActivity oid now orders).1 =
      { success := true, message := "Order cancelled" } ∧
    (releaseInventoryActivity oid items inv).1 =
      { success := true, message := "Inventory released" } ∧
    (refundPaymentActivity oid pid now payments).1 =
      { success := true, message := "Payment refunded" } ∧
    ((realGateway r1 r2 r3 pid now).cancelOrder oid w).1 =
      Except.ok (cancelOrderActivity oid now w.orders).1 ∧
    ((realGateway r1 r2 r3 pid now).releaseInventory oid items w).1 =
      Except.ok (releaseInventoryActivity oid items w.inventory).1 ∧
    ((realGateway r1 r2 r3 pid now).refundPayment oid pid w).1 =
      Except.ok (refundPaymentActivity oid pid now w.payments).1 := by
  intro oid pid now items orders payments inv w r1 r2 r3
  exact ⟨rfl, rfl, rfl, rfl, rfl, rfl⟩

/-- Claim C8: for every gateway behaviour (success results, failure
results, raised faults anywhere, including compensations and the
cancellation email), the workflow returns a structured result carrying
the request order id, shaped either as the success outcome or as the
compensated outcome with an error message set, and every forward-phase
fault is converted into the compensated outcome carrying that fault
message. -/
theorem c8_structured_outcome :
    ∀ (σ : Type) (G : Gateway σ) (d : OrderData) (s : σ),
    (orderWorkflow G d s).result.orderId = d.orderId ∧
    (((orderWorkflow G d s).result.success = true ∧
        (orderWorkflow G d s).result.error = none ∧
        (orderWorkflow G d s).result.message = "Order processed successfully") ∨
      ((orderWorkflow G d s).result.success = false ∧
        (∃ m, (orderWorkflow G d s).result.error = some m) ∧
        (orderWorkflow G d s).result.message = "Order cancelled and refunded")) ∧
    (∀ m, (forwardPhase G d s).outcome = Except.error m →
      (orderWorkflow G d s).result =
        { success := false, orderId := d.orderId,
          message := "Order cancelled and refunded", paymentId := none,
          error := some m }) := by
  intro σ G d s
  rcases hout : (forwardPhase G d s).outcome with m | pid
  · obtain ⟨h1, h2, h3⟩ := orderWorkflow_of_fwd_error G d s m hout
    refine ⟨by rw [h1], Or.inr ⟨by rw [h1], ⟨m, by rw [h1]⟩, by rw [h1]⟩, ?_⟩
    intro m2 hm2
    injection hm2 with hmm
    subst hmm
    exact h1
  · obtain ⟨h1, h2, h3⟩ := orderWorkflow_of_fwd_ok G d s pid hout
    refine ⟨by rw [h1], Or.inl ⟨by rw [h1], by rw [h1], by rw [h1]⟩, ?_⟩
    intro m2 hm2
    exact Except.noConfusion hm2

theorem c8_witness :
    (forwardPhase throwGateway unitData ()).outcome = Except.error ("boom") ∧
    (orderWorkflow throwGateway unitData ()).result =
      { success := false, orderId := "oX",
        message := "Order cancelled and refunded", paymentId := none,
        error := some ("boom") } :=
  ⟨rfl, (c8_structured_outcome Unit throwGateway unitData ()).2.2 ("boom") rfl⟩

/-- Claim C4: the workflow outcome, invocation trace and ledger do not
depend on the behaviour of the compensation capabilities or of the
cancellation email (their failure results are ignored and their faults
swallowed, so a failing compensation never aborts the unwind or changes
the outcome), and a compensated run reports exactly the forward-phase
error while executing all reversed ledger entries followed by the
cancellation email. -/
theorem c4_compensation_isolation :
    ∀ (σ : Type) (G Gp : Gateway σ) (d : OrderData) (s : σ),
    G.createOrder = Gp.createOrder →
    G.reserveInventory = Gp.reserveInventory →
    G.processPayment = Gp.processPayment →
    G.sendConfirmationEmail = Gp.sendConfirmationEmail →
    ((orderWorkflow G d s).result = (orderWorkflow Gp d s).result ∧
      (orderWorkflow G d s).trace = (orderWorkflow Gp d s).trace ∧
      (orderWorkflow G d s).ledger = (orderWorkflow Gp d s).ledger) ∧
    (∀ m, (forwardPhase G d s).outcome = Except.error m →
      (orderWorkflow G d s).result.error = some m ∧
      (orderWorkflow G d s).trace =
        (forwardPhase G d s).trace ++
        (forwardPhase G d s).ledger.reverse.map compKindCall ++
        [Call.sendCancellationEmail]) := by
  intro σ G Gp d s h1 h2 h3 h4
  have hfp : forwardPhase G d s = forwardPhase Gp d s := by
    unfold forwardPhase
    rw [h1, h2, h3, h4]
  constructor
  · rcases hout : (forwardPhase G d s).outcome with m | pid
    · have hout2 : (forwardPhase Gp d s).outcome = Except.error m := by
        rw [← hfp]
        exact hout
      obtain ⟨a1, a2, a3⟩ := orderWorkflow_of_fwd_error G d s m hout
      obtain ⟨b1, b2, b3⟩ := orderWorkflow_of_fwd_error Gp d s m hout2
      exact ⟨by rw [a1, b1], by rw [a2, b2, hfp], by rw [a3, b3, hfp]⟩
    · have hout2 : (forwardPhase Gp d s).outcome = Except.ok pid := by
        rw [← hfp]
        exact hout
      obtain ⟨a1, a2, a3⟩ := orderWorkflow_of_fwd_ok G d s pid hout
      obtain ⟨b1, b2, b3⟩ := orderWorkflow_of_fwd_ok Gp d s pid hout2
      exact ⟨by rw [a1, b1], by rw [a2, b2, hfp], by rw [a3, b3, hfp]⟩
  · intro m hm
    obtain ⟨a1, a2, a3⟩ := orderWorkflow_of_fwd_error G d s m hm
    exact ⟨by rw [a1], a2⟩

theorem c4_witness :
    (orderWorkflow payFailGateway unitData ()).result =
      (orderWorkflow compFailGateway unitData ()).result ∧
    (orderWorkflow payFailGateway unitData ()).trace =
      (orderWorkflow compFailGateway unitData ()).trace ∧
    (orderWorkflow compFailGateway unitData ()).result.error =
      some ("Payment failed: card declined") ∧
    compsExecuted (orderWorkflow compFailGateway unitData ()) =
      [Call.releaseInventory, Call.cancelOrder] ∧
    Call.sendCancellationEmail ∈ (orderWorkflow compFailGateway unitData ()).trace := by
  have h := c4_compensation_isolation Unit payFailGateway compFailGateway
    unitData () rfl rfl rfl rfl
  exact ⟨h.1.1, h.1.2.1, by decide, by decide, by decide⟩

/-- Claim C2 (counterexample): on a gateway where create-order succeeds
and reserve-inventory returns a failure result, the executed compensations
are ReleaseInventory then CancelOrder, not the reverse of the
successful-with-compensation forward steps (which is CancelOrder alone):
the release entry was pushed before the success check. -/
theorem c2_counterexample :
    reserveFalseGateway.createOrder unitData () = (Except.ok okCreated, ()) ∧
    okCreated.success = true ∧
    reserveFalseGateway.reserveInventory ("oX") unitData.items () =
      (Except.ok (reserveFail ("item-9")), ()) ∧
    (reserveFail ("item-9")).success = false ∧
    compsExecuted (orderWorkflow reserveFalseGateway unitData ()) =
      [Call.releaseInventory, Call.cancelOrder] ∧
    compsExecuted (orderWorkflow reserveFalseGateway unitData ()) ≠
      [Call.cancelOrder] := by
  decide

/-- Claim C2 (amended): forward capabilities are invoked in exactly the
Step Catalog order, each starting only after the previous finished; on a
successful saga the trace is exactly the four forward steps; on a
compensated saga the trace is a front segment of the catalog followed by
the executed compensations, which are exactly the reverse of the
compensation ledger (whose releaseInventory entry is recorded once the
reserve call returns, regardless of its success flag), followed by the
cancellation email. -/
theorem c2_ordering_amended :
    ∀ (σ : Type) (G : Gateway σ) (d : OrderData) (s : σ),
    ((orderWorkflow G d s).result.success = true →
      (orderWorkflow G d s).trace = catalogOrder) ∧
    ((orderWorkflow G d s).result.success = false →
      ∃ n, n ≤ 4 ∧
        (orderWorkflow G d s).trace =
          catalogOrder.take n ++
          (orderWorkflow G d s).ledger.reverse.map compKindCall ++
          [Call.sendCancellationEmail]) := by
  intro σ G d s
  rcases run_cases G d s with
    ⟨m, s1, hc, hfp⟩ | ⟨cr, s1, m, s2, hc, hr, hfp⟩ |
    ⟨cr, s1, ir, s2, hc, hr, hs, hfp⟩ |
    ⟨cr, s1, ir, s2, m, s3, hc, hr, hs, hp, hfp⟩ |
    ⟨cr, s1, ir, s2, pr, s3, hc, hr, hs, hp, hps, hfp⟩ |
    ⟨cr, s1, ir, s2, pr, s3, m, s4, hc, hr, hs, hp, hps, he, hfp⟩ |
    ⟨cr, s1, ir, s2, pr, s3, er, s4, hc, hr, hs, hp, hps, he, hfp⟩
  · have hout : (forwardPhase G d s).outcome = Except.error m := by rw [hfp]
    obtain ⟨h1, h2, h3⟩ := orderWorkflow_of_fwd_error G d s m hout
    constructor
    · intro habs
      rw [h1] at habs
      simp at habs
    · intro _
      refine ⟨1, by norm_num, ?_⟩
      rw [h2, h3, hfp]
      simp [catalogOrder]
  · have hout : (forwardPhase G d s).outcome = Except.error m := by rw [hfp]
    obtain ⟨h1, h2, h3⟩ := orderWorkflow_of_fwd_error G d s m hout
    constructor
    · intro habs
      rw [h1] at habs
      simp at habs
    · intro _
      refine ⟨2, by norm_num, ?_⟩
      rw [h2, h3, hfp]
      simp [catalogOrder]
  · have hout : (forwardPhase G d s).outcome =
        Except.error ("Insufficient inventory") := by rw [hfp]
    obtain ⟨h1, h2, h3⟩ := orderWorkflow_of_fwd_error G d s _ hout
    constructor
    · intro habs
      rw [h1] at habs
      simp at habs
    · intro _
      refine ⟨2, by norm_num, ?_⟩
      rw [h2, h3, hfp]
      simp [catalogOrder]
  · have hout : (forwardPhase G d s).outcome = Except.error m := by rw [hfp]
    obtain ⟨h1, h2, h3⟩ := orderWorkflow_of_fwd_error G d s m hout
    constructor
    · intro habs
      rw [h1] at habs
      simp at habs
    · intro _
      refine ⟨3, by norm_num, ?_⟩
      rw [h2, h3, hfp]
      simp [catalogOrder]
  · have hout : (forwardPhase G d s).outcome =
        Except.error ("Payment failed: " ++ jsOrElse pr.message ("Unknown error")) := by
      rw [hfp]
    obtain ⟨h1, h2, h3⟩ := orderWorkflow_of_fwd_error G d s _ hout
    constructor
    · intro habs
      rw [h1] at habs
      simp at habs
    · intro _
      refine ⟨3, by norm_num, ?_⟩
      rw [h2, h3, hfp]
      simp [catalogOrder]
  · have hout : (forwardPhase G d s).outcome = Except.error m := by rw [hfp]
    obtain ⟨h1, h2, h3⟩ := orderWorkflow_of_fwd_error G d s m hout
    constructor
    · intro habs
      rw [h1] at habs
      simp at habs
    · intro _
      refine ⟨4, by norm_num, ?_⟩
      rw [h2, h3, hfp]
      simp [catalogOrder]
  · have hout : (forwardPhase G d s).outcome = Except.ok pr.paymentId := by
      rw [hfp]
    obtain ⟨h1, h2, h3⟩ := orderWorkflow_of_fwd_ok G d s pr.paymentId hout
    constructor
    · intro _
      rw [h2, hfp]
    · intro habs
      rw [h1] at habs
      simp at habs

theorem c2_witness :
    (orderWorkflow reserveFalseGateway unitData ()).result.success = false ∧
    ∃ n, n ≤ 4 ∧
      (orderWorkflow reserveFalseGateway unitData ()).trace =
        catalogOrder.take n ++
        (orderWorkflow reserveFalseGateway unitData ()).ledger.reverse.map
          compKindCall ++
        [Call.sendCancellationEmail] :=
  ⟨by decide,
   (c2_ordering_amended Unit reserveFalseGateway unitData ()).2 (by decide)⟩

/-- Claim C6 (counterexample): on a gateway where create-order returns a
failure result, the coordinator does not compensate: all four forward
steps are still invoked, no compensation runs and the outcome is the
success outcome, because the workflow never inspects the create-order
result. -/
theorem c6_counterexample :
    createFalseGateway.createOrder unitData () =
      (Except.ok createFalseResult, ()) ∧
    createFalseResult.success = false ∧
    (orderWorkflow createFalseGateway unitData ()).trace = catalogOrder ∧
    (orderWorkflow createFalseGateway unitData ()).result.success = true ∧
    compsExecuted (orderWorkflow createFalseGateway unitData ()) = [] := by
  decide

/-- Claim C6 (amended): a failure result aborts the forward phase only at
the two steps whose result flag the workflow inspects: when
ReserveInventory returns a failure result the saga compensates without
invoking ProcessPayment or SendConfirmationEmail, and when ProcessPayment
returns a failure result the saga compensates without invoking
SendConfirmationEmail; the CreateOrder and SendConfirmationEmail result
flags are never inspected. -/
theorem c6_halt_amended :
    ∀ (σ : Type) (G : Gateway σ) (d : OrderData) (s : σ),
    (∀ cr s1 ir s2, G.createOrder d s = (Except.ok cr, s1) →
      G.reserveInventory d.orderId d.items s1 = (Except.ok ir, s2) →
      ir.success = false →
      (orderWorkflow G d s).result.success = false ∧
      Call.processPayment ∉ (orderWorkflow G d s).trace ∧
      Call.sendConfirmationEmail ∉ (orderWorkflow G d s).trace ∧
      Call.sendCancellationEmail ∈ (orderWorkflow G d s).trace) ∧
    (∀ cr s1 ir s2 pr s3, G.createOrder d s = (Except.ok cr, s1) →
      G.reserveInventory d.orderId d.items s1 = (Except.ok ir, s2) →
      ir.success = true →
      G.processPayment d.orderId d.userId d.totalAmount s2 =
        (Except.ok pr, s3) →
      pr.success = false →
      (orderWorkflow G d s).result.success = false ∧
      Call.sendConfirmationEmail ∉ (orderWorkflow G d s).trace ∧
      Call.sendCancellationEmail ∈ (orderWorkflow G d s).trace) := by
  intro σ G d s
  constructor
  · intro cr s1 ir s2 hc hr hs
    have hfp := forwardPhase_reserve_false G d s s1 s2 cr ir hc hr hs
    have hout : (forwardPhase G d s).outcome =
        Except.error ("Insufficient inventory") := by rw [hfp]
    obtain ⟨h1, h2, h3⟩ := orderWorkflow_of_fwd_error G d s _ hout
    have htr : (orderWorkflow G d s).trace =
        [Call.createOrder, Call.reserveInventory, Call.releaseInventory,
         Call.cancelOrder, Call.sendCancellationEmail] := by
      rw [h2, hfp]
      rfl
    refine ⟨by rw [h1], ?_, ?_, ?_⟩ <;> rw [htr] <;> decide
  · intro cr s1 ir s2 pr s3 hc hr hs hp hps
    have hfp := forwardPhase_payment_false G d s s1 s2 s3 cr ir pr hc hr hs hp hps
    have hout : (forwardPhase G d s).outcome =
        Except.error ("Payment failed: " ++ jsOrElse pr.message ("Unknown error")) := by
      rw [hfp]
    obtain ⟨h1, h2, h3⟩ := orderWorkflow_of_fwd_error G d s _ hout
    have htr : (orderWorkflow G d s).trace =
        [Call.createOrder, Call.reserveInventory, Call.processPayment,
         Call.releaseInventory, Call.cancelOrder,
         Call.sendCancellationEmail] := by
      rw [h2, hfp]
      rfl
    refine ⟨by rw [h1], ?_, ?_⟩ <;> rw [htr] <;> decide

theorem c6_witness :
    (orderWorkflow reserveFalseGateway unitData ()).result.success = false ∧
    Call.processPayment ∉ (orderWorkflow reserveFalseGateway unitData ()).trace ∧
    Call.sendConfirmationEmail ∉
      (orderWorkflow reserveFalseGateway unitData ()).trace ∧
    Call.sendCancellationEmail ∈
      (orderWorkflow reserveFalseGateway unitData ()).trace :=
  (c6_halt_amended Unit reserveFalseGateway unitData ()).1 okCreated ()
    (reserveFail ("item-9")) () rfl rfl rfl

/-- The Scenario C request: more of item-1 than the store holds. -/
def c1Data : OrderData :=
  { orderId := "oC", userId := "u1",
    items := [{ itemId := "item-1", name := "Product 1", quantity := 99,
                price := 10 }],
    totalAmount := 400 }

/-- Claim C1 (counterexample): running the saga against the real
activities on the initial stores with an order of 99 units of item-1
(only 10 in stock), the reserve step returns a failure result, yet a
ReleaseInventory entry is in the ledger and the executed compensations
are ReleaseInventory then CancelOrder, not CancelOrder alone. -/
theorem c1_counterexample :
    (reserveInventoryActivity ("oC") c1Data.items initialInventory).1.success
      = false ∧
    CompensationStep.releaseInventory ("oC") c1Data.items ∈
      (realRun initialWorld 50 50 50 ("p1") ("t0") c1Data).ledger ∧
    compsExecuted (realRun initialWorld 50 50 50 ("p1") ("t0") c1Data) ≠
      [Call.cancelOrder] ∧
    Call.releaseInventory ∈
      (realRun initialWorld 50 50 50 ("p1") ("t0") c1Data).trace := by
  decide

/-- Claim C1 (amended): the cancelOrder entry is recorded once createOrder
returns and the releaseInventory entry once reserveInventory returns,
regardless of the reserve success flag (only refundPayment is guarded by
its step succeeding); hence whenever ReserveInventory returns a failure
result the ledger is CancelOrder then ReleaseInventory and the executed
compensations are ReleaseInventory then CancelOrder, while no
RefundPayment runs. -/
theorem c1_ledger_amended :
    ∀ (w : World) (r1 r2 r3 : Rat) (pid now : String) (d : OrderData)
      (rr : ReserveInventoryResult) (inv2 : List (String × InventoryItem)),
    reserveInventoryActivity d.orderId d.items w.inventory = (rr, inv2) →
    rr.success = false →
    (realRun w r1 r2 r3 pid now d).ledger =
      [CompensationStep.cancelOrder d.orderId,
       CompensationStep.releaseInventory d.orderId d.items] ∧
    compsExecuted (realRun w r1 r2 r3 pid now d) =
      [Call.releaseInventory, Call.cancelOrder] ∧
    (realRun w r1 r2 r3 pid now d).result.success = false ∧
    (realRun w r1 r2 r3 pid now d).result.error =
      some ("Insufficient inventory") ∧
    Call.refundPayment ∉ (realRun w r1 r2 r3 pid now d).trace := by
  intro w r1 r2 r3 pid now d rr inv2 hres hrs
  simp only [realRun]
  have hc : (realGateway r1 r2 r3 pid now).createOrder d w =
      (Except.ok (createOrderActivity d now w.orders).1,
       { w with orders := (createOrderActivity d now w.orders).2 }) := rfl
  have hr : (realGateway r1 r2 r3 pid now).reserveInventory d.orderId d.items
      { w with orders := (createOrderActivity d now w.orders).2 } =
      (Except.ok rr,
       { w with orders := (createOrderActivity d now w.orders).2,
                inventory := inv2 }) := by
    rw [realGateway_reserveInventory]
    dsimp only
    rw [hres]
  have hfp := forwardPhase_reserve_false (realGateway r1 r2 r3 pid now) d w
    _ _ _ rr hc hr hrs
  have hout : (forwardPhase (realGateway r1 r2 r3 pid now) d w).outcome =
      Except.error ("Insufficient inventory") := by rw [hfp]
  obtain ⟨h1, h2, h3⟩ :=
    orderWorkflow_of_fwd_error (realGateway r1 r2 r3 pid now) d w _ hout
  have htr : (orderWorkflow (realGateway r1 r2 r3 pid now) d w).trace =
      [Call.createOrder, Call.reserveInventory, Call.releaseInventory,
       Call.cancelOrder, Call.sendCancellationEmail] := by
    rw [h2, hfp]
    rfl
  refine ⟨?_, ?_, ?_, ?_, ?_⟩
  · rw [h3, hfp]
  · simp only [compsExecuted]
    rw [htr]
    rfl
  · rw [h1]
  · rw [h1]
  · rw [htr]
    decide

theorem c1_witness :
    reserveInventoryActivity ("oC") c1Data.items initialInventory =
      (reserveFail ("item-1"), initialInventory) ∧
    (reserveFail ("item-1")).success = false ∧
    (realRun initialWorld 50 50 50 ("p1") ("t0") c1Data).ledger =
      [CompensationStep.cancelOrder ("oC"),
       CompensationStep.releaseInventory ("oC") c1Data.items] ∧
    compsExecuted (realRun initialWorld 50 50 50 ("p1") ("t0") c1Data) =
      [Call.releaseInventory, Call.cancelOrder] := by
  have h := c1_ledger_amended initialWorld 50 50 50 ("p1") ("t0") c1Data
    (reserveFail ("item-1")) initialInventory (by decide) (by decide)
  exact ⟨by decide, by decide, h.1, h.2.1⟩

/-- The Scenario B line items: one unit of item-1, within stock. -/
def c5Items : List OrderItem :=
  [{ itemId := "item-1", name := "Product 1", quantity := 1, price := 100 }]

/-- The inventory after reserving the Scenario B items. -/
def c5Inv2 : List (String × InventoryItem) :=
  [("item-1", { name := "Product 1", quantity := 9, reserved := 1 }),
   ("item-2", { name := "Product 2", quantity := 5, reserved := 0 }),
   ("item-3", { name := "Product 3", quantity := 8, reserved := 0 })]

/-- The Scenario B request: totalAmount 2700, items within stock. -/
def c5Data : OrderData :=
  { orderId := "o2", userId := "u2", items := c5Items, totalAmount := 2700 }

/-- Claim C5 (counterexample): in the Scenario B run (totalAmount 2700,
reserve succeeds, payment fails on the ceiling) the emitted error is the
doubly prefixed string, not the single string the claim asserts: the
workflow prepends its own Payment failed prefix to an activity message
that already carries it. -/
theorem c5_counterexample :
    (reserveInventoryActivity ("o2") c5Items initialInventory).1.success
      = true ∧
    (realRun initialWorld 50 50 50 ("p1") ("t0") c5Data).result.error =
      some ("Payment failed: Payment failed: Amount exceeds limit of 1000") ∧
    (realRun initialWorld 50 50 50 ("p1") ("t0") c5Data).result.error ≠
      some ("Payment failed: Amount exceeds limit of 1000") := by
  decide

/-- Claim C5 (amended): for every request with orderId o2 and totalAmount
2700 whose reserve step succeeds, and every random draw, CreateOrder and
ReserveInventory succeed, ProcessPayment fails terminally on the amount
ceiling, no RefundPayment compensation runs (no paymentId was produced),
ReleaseInventory then CancelOrder execute, and the outcome is success
false with orderId o2 and error
Payment failed: Payment failed: Amount exceeds limit of 1000 (the
workflow re-prefixes the activity message). -/
theorem c5_scenario_b_amended :
    ∀ (w : World) (r1 r2 r3 : Rat) (pid now : String) (d : OrderData)
      (rr : ReserveInventoryResult) (inv2 : List (String × InventoryItem)),
    d.orderId = "o2" →
    d.totalAmount = 2700 →
    reserveInventoryActivity d.orderId d.items w.inventory = (rr, inv2) →
    rr.success = true →
    (realRun w r1 r2 r3 pid now d).result =
      { success := false, orderId := "o2",
        message := "Order cancelled and refunded", paymentId := none,
        error := some ("Payment failed: Payment failed: Amount exceeds limit of 1000") } ∧
    compsExecuted (realRun w r1 r2 r3 pid now d) =
      [Call.releaseInventory, Call.cancelOrder] ∧
    Call.refundPayment ∉ (realRun w r1 r2 r3 pid now d).trace ∧
    (realRun w r1 r2 r3 pid now d).ledger =
      [CompensationStep.cancelOrder ("o2"),
       CompensationStep.releaseInventory ("o2") d.items] := by
  intro w r1 r2 r3 pid now d rr inv2 hoid htot hres hrs
  simp only [realRun]
  have hc : (realGateway r1 r2 r3 pid now).createOrder d w =
      (Except.ok (createOrderActivity d now w.orders).1,
       { w with orders := (createOrderActivity d now w.orders).2 }) := rfl
  have hr : (realGateway r1 r2 r3 pid now).reserveInventory d.orderId d.items
      { w with orders := (createOrderActivity d now w.orders).2 } =
      (Except.ok rr,
       { w with orders := (createOrderActivity d now w.orders).2,
                inventory := inv2 }) := by
    rw [realGateway_reserveInventory]
    dsimp only
    rw [hres]
  have hpw := paymentWithRetry_limit d.orderId d.userId d.totalAmount
    r1 r2 r3 pid now w.payments (by rw [htot]; norm_num)
  have hp := realGateway_processPayment_of_ok r1 r2 r3 pid now
    d.orderId d.userId d.totalAmount
    { w with orders := (createOrderActivity d now w.orders).2,
             inventory := inv2 }
    limitFailResult w.payments hpw
  have hps : limitFailResult.success = false := rfl
  have hfp := forwardPhase_payment_false (realGateway r1 r2 r3 pid now) d w
    _ _ _ _ rr limitFailResult hc hr hrs hp hps
  have hout : (forwardPhase (realGateway r1 r2 r3 pid now) d w).outcome =
      Except.error ("Payment failed: " ++
        jsOrElse limitFailResult.message ("Unknown error")) := by
    rw [hfp]
  obtain ⟨h1, h2, h3⟩ :=
    orderWorkflow_of_fwd_error (realGateway r1 r2 r3 pid now) d w _ hout
  have htr : (orderWorkflow (realGateway r1 r2 r3 pid now) d w).trace =
      [Call.createOrder, Call.reserveInventory, Call.processPayment,
       Call.releaseInventory, Call.cancelOrder,
       Call.sendCancellationEmail] := by
    rw [h2, hfp]
    rfl
  refine ⟨?_, ?_, ?_, ?_⟩
  · rw [h1, hoid]
    decide
  · simp only [compsExecuted]
    rw [htr]
    rfl
  · rw [htr]
    decide
  · rw [h3, hfp, hoid]

theorem c5_witness :
    c5Data.orderId = "o2" ∧
    c5Data.totalAmount = 2700 ∧
    reserveInventoryActivity ("o2") c5Items initialInventory =
      (reserveOk, c5Inv2) ∧
    reserveOk.success = true ∧
    (realRun initialWorld 50 50 50 ("p1") ("t0") c5Data).result =
      { success := false, orderId := "o2",
        message := "Order cancelled and refunded", paymentId := none,
        error := some ("Payment failed: Payment failed: Amount exceeds limit of 1000") } := by
  have h := c5_scenario_b_amended initialWorld 50 50 50 ("p1") ("t0") c5Data
    reserveOk c5Inv2 rfl rfl (by decide) rfl
  exact ⟨rfl, rfl, by decide, rfl, h.1⟩

/-- Claim C7: over the real activities, for every starting store, random
draws and request, the outcome succeeds exactly when no compensation
capability was invoked; a success outcome carries no error, the success
message and the produced payment identifier; a compensated outcome always
carries an error, the cancellation message and no payment identifier. -/
theorem c7_outcome_iff :
    ∀ (w : World) (r1 r2 r3 : Rat) (pid now : String) (d : OrderData),
    ((realRun w r1 r2 r3 pid now d).result.success = true ↔
      compsExecuted (realRun w r1 r2 r3 pid now d) = []) ∧
    ((realRun w r1 r2 r3 pid now d).result.success = true →
      (realRun w r1 r2 r3 pid now d).result.error = none ∧
      (realRun w r1 r2 r3 pid now d).result.message =
        "Order processed successfully" ∧
      (realRun w r1 r2 r3 pid now d).result.paymentId = some pid) ∧
    ((realRun w r1 r2 r3 pid now d).result.success = false →
      (∃ m, (realRun w r1 r2 r3 pid now d).result.error = some m) ∧
      (realRun w r1 r2 r3 pid now d).result.message =
        "Order cancelled and refunded" ∧
      (realRun w r1 r2 r3 pid now d).result.paymentId = none) := by
  intro w r1 r2 r3 pid now d
  simp only [realRun]
  have hc : (realGateway r1 r2 r3 pid now).createOrder d w =
      (Except.ok (createOrderActivity d now w.orders).1,
       { w with orders := (createOrderActivity d now w.orders).2 }) := rfl
  rcases hres : reserveInventoryActivity d.orderId d.items w.inventory with
    ⟨rr, inv2⟩
  have hr : (realGateway r1 r2 r3 pid now).reserveInventory d.orderId d.items
      { w with orders := (createOrderActivity d now w.orders).2 } =
      (Except.ok rr,
       { w with orders := (createOrderActivity d now w.orders).2,
                inventory := inv2 }) := by
    rw [realGateway_reserveInventory]
    dsimp only
    rw [hres]
  rcases hrs : rr.success with _ | _
  · have hfp := forwardPhase_reserve_false (realGateway r1 r2 r3 pid now)
      d w _ _ _ rr hc hr hrs
    have hout : (forwardPhase (realGateway r1 r2 r3 pid now) d w).outcome =
        Except.error ("Insufficient inventory") := by rw [hfp]
    obtain ⟨h1, h2, h3⟩ :=
      orderWorkflow_of_fwd_error (realGateway r1 r2 r3 pid now) d w _ hout
    have htr : (orderWorkflow (realGateway r1 r2 r3 pid now) d w).trace =
        [Call.createOrder, Call.reserveInventory, Call.releaseInventory,
         Call.cancelOrder, Call.sendCancellationEmail] := by
      rw [h2, hfp]
      rfl
    have hce : compsExecuted (orderWorkflow (realGateway r1 r2 r3 pid now) d w) =
        [Call.releaseInventory, Call.cancelOrder] := by
      simp only [compsExecuted]
      rw [htr]
      rfl
    refine ⟨by rw [h1, hce]; simp, ?_, ?_⟩
    · intro habs
      rw [h1] at habs
      simp at habs
    · intro _
      refine ⟨⟨"Insufficient inventory", ?_⟩, ?_, ?_⟩ <;> rw [h1]
  · rcases paymentWithRetry_shape d.orderId d.userId d.totalAmount r1 r2 r3
      pid now w.payments with ⟨m, hpw⟩ | ⟨msg, hpw⟩ | ⟨ps2, hpw⟩
    · have hp := realGateway_processPayment_of_error r1 r2 r3 pid now
        d.orderId d.userId d.totalAmount
        { w with orders := (createOrderActivity d now w.orders).2,
                 inventory := inv2 }
        m hpw
      have hfp := forwardPhase_payment_throw (realGateway r1 r2 r3 pid now)
        d w _ _ _ _ rr m hc hr hrs hp
      have hout : (forwardPhase (realGateway r1 r2 r3 pid now) d w).outcome =
          Except.error m := by rw [hfp]
      obtain ⟨h1, h2, h3⟩ :=
        orderWorkflow_of_fwd_error (realGateway r1 r2 r3 pid now) d w _ hout
      have htr : (orderWorkflow (realGateway r1 r2 r3 pid now) d w).trace =
          [Call.createOrder, Call.reserveInventory, Call.processPayment,
           Call.releaseInventory, Call.cancelOrder,
           Call.sendCancellationEmail] := by
        rw [h2, hfp]
        rfl
      have hce : compsExecuted
          (orderWorkflow (realGateway r1 r2 r3 pid now) d w) =
          [Call.releaseInventory, Call.cancelOrder] := by
        simp only [compsExecuted]
        rw [htr]
        rfl
      refine ⟨by rw [h1, hce]; simp, ?_, ?_⟩
      · intro habs
        rw [h1] at habs
        simp at habs
      · intro _
        refine ⟨⟨m, ?_⟩, ?_, ?_⟩ <;> rw [h1]
    · have hp := realGateway_processPayment_of_ok r1 r2 r3 pid now
        d.orderId d.userId d.totalAmount
        { w with orders := (createOrderActivity d now w.orders).2,
                 inventory := inv2 }
        { success := false, paymentId := none, amount := none,
          message := some msg }
        w.payments hpw
      have hfp := forwardPhase_payment_false (realGateway r1 r2 r3 pid now)
        d w _ _ _ _ rr
        { success := false, paymentId := none, amount := none,
          message := some msg }
        hc hr hrs hp rfl
      have hout : (forwardPhase (realGateway r1 r2 r3 pid now) d w).outcome =
          Except.error ("Payment failed: " ++
            jsOrElse (some msg) ("Unknown error")) := by
        rw [hfp]
      obtain ⟨h1, h2, h3⟩ :=
        orderWorkflow_of_fwd_error (realGateway r1 r2 r3 pid now) d w _ hout
      have htr : (orderWorkflow (realGateway r1 r2 r3 pid now) d w).trace =
          [Call.createOrder, Call.reserveInventory, Call.processPayment,
           Call.releaseInventory, Call.cancelOrder,
           Call.sendCancellationEmail] := by
        rw [h2, hfp]
        rfl
      have hce : compsExecuted
          (orderWorkflow (realGateway r1 r2 r3 pid now) d w) =
          [Call.releaseInventory, Call.cancelOrder] := by
        simp only [compsExecuted]
        rw [htr]
        rfl
      refine ⟨by rw [h1, hce]; simp, ?_, ?_⟩
      · intro habs
        rw [h1] at habs
        simp at habs
      · intro _
        refine ⟨⟨"Payment failed: " ++ jsOrElse (some msg) ("Unknown error"), ?_⟩,
          ?_, ?_⟩ <;> rw [h1]
    · have hp := realGateway_processPayment_of_ok r1 r2 r3 pid now
        d.orderId d.userId d.totalAmount
        { w with orders := (createOrderActivity d now w.orders).2,
                 inventory := inv2 }
        { success := true, paymentId := some pid,
          amount := some d.totalAmount, message := none }
        ps2 hpw
      have hfp := forwardPhase_success (realGateway r1 r2 r3 pid now)
        d w _ _ _ _ _ rr
        { success := true, paymentId := some pid,
          amount := some d.totalAmount, message := none }
        (sendConfirmationEmailActivity d.orderId d.userId d.totalAmount)
        hc hr hrs hp rfl rfl
      have hout : (forwardPhase (realGateway r1 r2 r3 pid now) d w).outcome =
          Except.ok (some pid) := by rw [hfp]
      obtain ⟨h1, h2, h3⟩ :=
        orderWorkflow_of_fwd_ok (realGateway r1 r2 r3 pid now) d w _ hout
      have htr : (orderWorkflow (realGateway r1 r2 r3 pid now) d w).trace =
          catalogOrder := by
        rw [h2, hfp]
      have hce : compsExecuted
          (orderWorkflow (realGateway r1 r2 r3 pid now) d w) = [] := by
        simp only [compsExecuted]
        rw [htr]
        rfl
      refine ⟨by rw [h1, hce]; simp, ?_, ?_⟩
      · intro _
        exact ⟨by rw [h1], by rw [h1], by rw [h1]⟩
      · intro habs
        rw [h1] at habs
        simp at habs

/-- A successful whole-system run used to instantiate C7. -/
def c7Data : OrderData :=
  { orderId := "o1", userId := "u1",
    items := [{ itemId := "item-1", name := "Product 1", quantity := 2,
                price := 100 }],
    totalAmount := 400 }

theorem c7_witness :
    (realRun initialWorld 50 50 50 ("p1") ("t0") c7Data).result.success = true ∧
    compsExecuted (realRun initialWorld 50 50 50 ("p1") ("t0") c7Data) = [] ∧
    (realRun initialWorld 50 50 50 ("p1") ("t0") c7Data).result.error = none := by
  have h := c7_outcome_iff initialWorld 50 50 50 ("p1") ("t0") c7Data
  exact ⟨by decide, h.1.mp (by decide), (h.2.1 (by decide)).1⟩

end Saga
